import Mathlib

/-!
Verification of the resource-descriptor builder and request-path synthesizer
(`src/api/crds.rs` of kube-rs). The descriptor builder (`CrBuilder`,
`CustomResource`) is embedded directly from the source; panics
(`assert!`, `expect`) are modelled as `Option.none`. The third-party
string utilities (`to_plural`, `is_pascal_case` from the inflector crate)
and the request synthesizer (`RawApi`'s verb methods, in `raw.rs`) are not
part of the given source tree and are modelled from the spec, as marked on
each definition.
-/

/-- Vowel test used by the pluralization rules. -/
def vowel (c : Char) : Bool :=
  c == 'a' || c == 'e' || c == 'i' || c == 'o' || c == 'u'

/-- Modelled from the spec: the English-pluralization utility (the
inflector crate's `to_plural`, an external pure string function). Rules on
word endings: a word already ending in "s" is treated as already plural and
left unchanged; "y" after a non-vowel becomes "ies"; "x", "z", "ch", "sh"
take "es"; every other word takes a plain "s". Works on the reversed
character list of the word. -/
def pluralRev : List Char → List Char
  | 'y' :: c :: rest =>
    if vowel c then 's' :: 'y' :: c :: rest else 's' :: 'e' :: 'i' :: c :: rest
  | 's' :: rest => 's' :: rest
  | 'x' :: rest => 's' :: 'e' :: 'x' :: rest
  | 'z' :: rest => 's' :: 'e' :: 'z' :: rest
  | 'h' :: 'c' :: rest => 's' :: 'e' :: 'h' :: 'c' :: rest
  | 'h' :: 's' :: rest => 's' :: 'e' :: 'h' :: 's' :: rest
  | cs => 's' :: cs

/-- Modelled from the spec: deterministic English pluralization of a word
(inflector's `to_plural`). -/
def to_plural (s : String) : String :=
  ⟨(pluralRev s.data.reverse).reverse⟩

/-- Modelled from the spec: capitalized-word (PascalCase) style check
(inflector's `is_pascal_case`): a nonempty run of letters and digits whose
first character is uppercase, no separators. -/
def is_pascal_case (s : String) : Bool :=
  match s.data with
  | [] => false
  | c :: rest => c.isUpper && (c :: rest).all fun x => x.isAlpha || x.isDigit

/-- Modelled from the spec: lowercasing applied to the kind before
pluralization when deriving the path's collection-name segment. -/
def toLowerStr (s : String) : String :=
  ⟨s.data.map Char.toLower⟩

/-- The immutable resource descriptor (struct `CustomResource` in
`crds.rs`): kind, group, version, the derived `api_version`, and the
optional namespace (`ns` here, since `namespace` is a Lean keyword). -/
structure CustomResource where
  kind : String
  group : String
  version : String
  api_version : String
  ns : Option String
  deriving DecidableEq, Repr

/-- The builder (struct `CrBuilder` in `crds.rs`): `version?`, `group?` and
`ns` start out unset (`Default::default()`). -/
structure CrBuilder where
  kind : String
  version? : Option String
  group? : Option String
  ns : Option String
  deriving DecidableEq, Repr

/-- `CrBuilder::new` (crds.rs lines 50-57): asserts that the kind is not
already plural (`to_plural(kind) != kind`) and is PascalCase; an assertion
failure (panic) is modelled as `none`. -/
def CrBuilder.new (kind : String) : Option CrBuilder :=
  if to_plural kind = kind then none
  else if is_pascal_case kind then
    some { kind := kind, version? := none, group? := none, ns := none }
  else none

/-- `CustomResource::new` (crds.rs lines 22-24): constructs a `CrBuilder`. -/
def CustomResource.new (kind : String) : Option CrBuilder :=
  CrBuilder.new kind

/-- `CrBuilder::group` (crds.rs lines 60-63). -/
def CrBuilder.group (b : CrBuilder) (g : String) : CrBuilder :=
  { b with group? := some g }

/-- `CrBuilder::version` (crds.rs lines 66-69). -/
def CrBuilder.version (b : CrBuilder) (v : String) : CrBuilder :=
  { b with version? := some v }

/-- `CrBuilder::within` (crds.rs lines 72-75). -/
def CrBuilder.within (b : CrBuilder) (n : String) : CrBuilder :=
  { b with ns := some n }

/-- `CrBuilder::build` (crds.rs lines 78-88): `expect`s the version and the
group in that order (panic modelled as `none`), then assembles the
descriptor with `api_version = format!("{}/{}", group, version)` —
unconditionally, also for an empty group. -/
def CrBuilder.build (b : CrBuilder) : Option CustomResource :=
  match b.version? with
  | none => none
  | some version =>
    match b.group? with
    | none => none
    | some group =>
      some { api_version := group ++ "/" ++ version
             kind := b.kind
             version := version
             group := group
             ns := b.ns }

/-- The target of `From<CustomResource> for RawApi<K>` (crds.rs lines
92-103): the fields the conversion constructs, minus the zero-sized
`phantom` marker. The verb methods of this type live in `raw.rs`, outside
the given source tree, and are modelled from the spec below. -/
structure RawApi where
  api_version : String
  kind : String
  group : String
  version : String
  ns : Option String
  deriving DecidableEq, Repr

/-- `From<CustomResource> for RawApi<K>` (crds.rs lines 92-103): copies
every field of the descriptor unchanged. -/
def RawApi.fromCustomResource (c : CustomResource) : RawApi :=
  { api_version := c.api_version
    kind := c.kind
    group := c.group
    version := c.version
    ns := c.ns }

/-- The request specification (spec section 3): method, absolute path,
query string, optional body (bytes as a list of naturals). -/
structure RequestSpec where
  method : String
  path : String
  query : String
  body : Option (List Nat)
  deriving DecidableEq, Repr

/-- Modelled from the spec: the routing rule of the request synthesizer
(`raw.rs`, not under the given source tree). The URL root is "/api" for the
empty (core) group and "/apis" otherwise; a namespaced descriptor inserts
the "namespaces/..." segment; the collection segment is the pluralized,
lowercased kind. -/
def RawApi.collectionPath (r : RawApi) : String :=
  let root := if r.group = "" then "/api" else "/apis"
  match r.ns with
  | some n =>
    root ++ "/" ++ r.api_version ++ "/namespaces/" ++ n ++ "/"
      ++ to_plural (toLowerStr r.kind)
  | none => root ++ "/" ++ r.api_version ++ "/" ++ to_plural (toLowerStr r.kind)

/-- Modelled from the spec: item-level verbs target the collection path
followed by the item name. -/
def RawApi.itemPath (r : RawApi) (name : String) : String :=
  r.collectionPath ++ "/" ++ name

/-- Modelled from the spec: `PostParams` for the create verb; the dry-run
option only, `default` leaves it unset. -/
structure PostParams where
  dryRun : Bool
  deriving DecidableEq, Repr

/-- `PostParams::default()`: no options set. -/
def PostParams.default : PostParams := { dryRun := false }

/-- Modelled from the spec: the query string for create; an unset option
contributes nothing. -/
def postQuery (pp : PostParams) : String :=
  if pp.dryRun then "dryRun=All" else ""

/-- Modelled from the spec: `PatchParams` for the patch verb; the dry-run
option only, `default` leaves it unset. -/
structure PatchParams where
  dryRun : Bool
  deriving DecidableEq, Repr

/-- `PatchParams::default()`: no options set. -/
def PatchParams.default : PatchParams := { dryRun := false }

/-- Modelled from the spec: the query string for patch; an unset option
contributes nothing. -/
def patchQuery (pp : PatchParams) : String :=
  if pp.dryRun then "dryRun=All" else ""

/-- Modelled from the spec: `RawApi::create` (raw.rs, not under the given
source tree) — create targets the collection path with method POST and
attaches the body. -/
def RawApi.create (r : RawApi) (pp : PostParams) (data : List Nat) : RequestSpec :=
  { method := "POST"
    path := r.collectionPath
    query := postQuery pp
    body := some data }

/-- Modelled from the spec: `RawApi::patch` (raw.rs, not under the given
source tree) — patch targets the item path with method PATCH and passes the
raw patch payload through unmodified. -/
def RawApi.patch (r : RawApi) (name : String) (pp : PatchParams) (data : List Nat) :
    RequestSpec :=
  { method := "PATCH"
    path := r.itemPath name
    query := patchQuery pp
    body := some data }

/-- The full request URI as the repository's own test observes it
(crds.rs lines 132 and 135 assert URIs of the shape `path ++ "?" ++ query`
with an empty query): the path, then the "?" separator, then the query. -/
def RequestSpec.uri (s : RequestSpec) : String :=
  s.path ++ "?" ++ s.query

/-- One builder-facing operation, for the immutability trace model: the
three fluent setters and a build call. -/
inductive BuilderOp where
  | setGroup : String → BuilderOp
  | setVersion : String → BuilderOp
  | setWithin : String → BuilderOp
  | runBuild : BuilderOp
  deriving DecidableEq, Repr

/-- Trace-model state: the current builder plus every descriptor built so
far. -/
structure BuildWorld where
  builder : CrBuilder
  built : List CustomResource
  deriving DecidableEq, Repr

/-- One step of the trace model: setters update the builder only; a build
call appends the built descriptor (when building succeeds) and never
touches descriptors already in `built`. -/
def stepOp (w : BuildWorld) : BuilderOp → BuildWorld
  | .setGroup g => { w with builder := w.builder.group g }
  | .setVersion v => { w with builder := w.builder.version v }
  | .setWithin n => { w with builder := w.builder.within n }
  | .runBuild =>
    match w.builder.build with
    | some d => { builder := w.builder, built := w.built ++ [d] }
    | none => w

/-- Running a whole sequence of builder operations. -/
def runOps (w : BuildWorld) : List BuilderOp → BuildWorld
  | [] => w
  | op :: ops => runOps (stepOp w op) ops

/-- C1, counterexample: with the empty group, the built descriptor's
`api_version` is "/v1", not the bare version "v1" the claim demands —
`build` computes `group ++ "/" ++ version` unconditionally (crds.rs line
82). -/
theorem c1_counterexample :
    ((CustomResource.new "Foo").bind
        (fun b => ((b.group "").version "v1").build)).map CustomResource.api_version
      = some "/v1"
    ∧ some "/v1" ≠ some "v1" := by
  constructor
  · decide
  · decide

/-- C1 (amended): for every non-plural PascalCase kind and all groups and
versions, `newBuilder(kind).group(g).version(v).build()` succeeds, and the
resulting descriptor's `api_version` equals `g ++ "/" ++ v` in every case —
also when the group is empty (where the claim expected the bare version). -/
theorem c1_amended (kind g v : String) (h1 : to_plural kind ≠ kind)
    (h2 : is_pascal_case kind = true) :
    (CustomResource.new kind).bind (fun b => ((b.group g).version v).build)
      = some { kind := kind, group := g, version := v,
               api_version := g ++ "/" ++ v, ns := none } := by
  simp [CustomResource.new, CrBuilder.new, h1, h2, CrBuilder.group,
    CrBuilder.version, CrBuilder.build]

/-- C1 witness: the amended theorem at kind "Foo", group "clux.dev",
version "v1". -/
theorem c1_amended_witness :
    (CustomResource.new "Foo").bind
        (fun b => ((b.group "clux.dev").version "v1").build)
      = some { kind := "Foo", group := "clux.dev", version := "v1",
               api_version := "clux.dev" ++ "/" ++ "v1", ns := none } :=
  c1_amended "Foo" "clux.dev" "v1" (by decide) (by decide)

/-- C2: building a builder on which the version was never set, or on which
the group was never set, always fails (the `expect` calls of crds.rs lines
79-80, modelled as `none`). -/
theorem c2_build_missing_fails (b : CrBuilder)
    (h : b.version? = none ∨ b.group? = none) : b.build = none := by
  rcases h with h | h
  · simp [CrBuilder.build, h]
  · cases hv : b.version? <;> simp [CrBuilder.build, h, hv]

/-- C2 witness: a builder with a group but no version fails to build. -/
theorem c2_witness :
    ({ kind := "Foo", version? := none, group? := some "clux.dev", ns := none }
        : CrBuilder).build = none :=
  c2_build_missing_fails _ (Or.inl rfl)

/-- C3: `newBuilder(kind)` fails for the empty kind, for a kind that is a
fixed point of the pluralization function, and for a kind that is not
PascalCase; for every other kind it returns a builder whose `kind` field is
the argument and whose other fields are unset. -/
theorem c3_new_validation (kind : String) :
    ((kind = "" ∨ to_plural kind = kind ∨ is_pascal_case kind = false) →
      CustomResource.new kind = none)
    ∧ ((to_plural kind ≠ kind ∧ is_pascal_case kind = true) →
      CustomResource.new kind
        = some { kind := kind, version? := none, group? := none, ns := none }) := by
  constructor
  · rintro (h | h | h)
    · subst h; decide
    · simp [CustomResource.new, CrBuilder.new, h]
    · by_cases hp : to_plural kind = kind <;>
        simp [CustomResource.new, CrBuilder.new, hp, h]
  · rintro ⟨h1, h2⟩
    simp [CustomResource.new, CrBuilder.new, h1, h2]

/-- C3 witness: the validation at four concrete kinds — empty, already
plural ("Foos"), not PascalCase ("foo"), and the accepted "Foo". -/
theorem c3_witness :
    CustomResource.new "" = none
    ∧ CustomResource.new "Foos" = none
    ∧ CustomResource.new "foo" = none
    ∧ CustomResource.new "Foo"
        = some { kind := "Foo", version? := none, group? := none, ns := none } :=
  ⟨(c3_new_validation "").1 (Or.inl rfl),
   (c3_new_validation "Foos").1 (Or.inr (Or.inl (by decide))),
   (c3_new_validation "foo").1 (Or.inr (Or.inr (by decide))),
   (c3_new_validation "Foo").2 ⟨by decide, by decide⟩⟩

/-- C4: the namespace-scoped descriptor from kind "Foo", group "clux.dev",
version "v1", namespace "myns" gives a create request whose path is
"/apis/clux.dev/v1/namespaces/myns/foos". -/
theorem c4_namespaced_create_path :
    ((CustomResource.new "Foo").bind
        (fun b => (((b.group "clux.dev").version "v1").within "myns").build)).map
        (fun d => ((RawApi.fromCustomResource d).create PostParams.default []).path)
      = some "/apis/clux.dev/v1/namespaces/myns/foos" := by
  decide

/-- C5: the same namespace-scoped descriptor gives a patch request for item
"baz" whose path is "/apis/clux.dev/v1/namespaces/myns/foos/baz" and whose
method is PATCH. -/
theorem c5_namespaced_patch :
    ((CustomResource.new "Foo").bind
        (fun b => (((b.group "clux.dev").version "v1").within "myns").build)).map
        (fun d =>
          let s := (RawApi.fromCustomResource d).patch "baz" PatchParams.default []
          (s.path, s.method))
      = some ("/apis/clux.dev/v1/namespaces/myns/foos/baz", "PATCH") := by
  decide

/-- C6, counterexample: with the default (empty) option set the synthesized
create URI is "/apis/clux.dev/v1/namespaces/myns/foos?" — exactly what the
repository's own test asserts (crds.rs line 132) — and it ends in a
dangling "?" with nothing after it, which the claim says never happens. -/
theorem c6_counterexample :
    ((CustomResource.new "Foo").bind
        (fun b => (((b.group "clux.dev").version "v1").within "myns").build)).map
        (fun d => ((RawApi.fromCustomResource d).create PostParams.default []).uri)
      = some "/apis/clux.dev/v1/namespaces/myns/foos?"
    ∧ "/apis/clux.dev/v1/namespaces/myns/foos?"
        = "/apis/clux.dev/v1/namespaces/myns/foos" ++ "?"
    ∧ "/apis/clux.dev/v1/namespaces/myns/foos?".data.getLast? = some '?' := by
  refine ⟨by decide, rfl, by decide⟩

/-- C6 (amended): with default (empty) options the query string itself is
empty — it contributes no separators or parameters — but the synthesized
URI always carries the "?" separator: it is the path followed by a single
trailing "?", for both create and patch. -/
theorem c6_amended (r : RawApi) (name : String) (data : List Nat) :
    (r.create PostParams.default data).query = ""
    ∧ (r.create PostParams.default data).uri
        = (r.create PostParams.default data).path ++ "?"
    ∧ (r.patch name PatchParams.default data).query = ""
    ∧ (r.patch name PatchParams.default data).uri
        = (r.patch name PatchParams.default data).path ++ "?" := by
  refine ⟨rfl, ?_, rfl, ?_⟩ <;>
    simp [RequestSpec.uri, RawApi.create, RawApi.patch, postQuery, patchQuery,
      PostParams.default, PatchParams.default]

/-- C7: the cluster-scoped descriptor (no namespace) from kind "Foo", group
"clux.dev", version "v1" gives a create request whose path is
"/apis/clux.dev/v1/foos" (no namespaces segment) and whose method is
POST. -/
theorem c7_cluster_create :
    ((CustomResource.new "Foo").bind
        (fun b => ((b.group "clux.dev").version "v1").build)).map
        (fun d =>
          let s := (RawApi.fromCustomResource d).create PostParams.default []
          (s.path, s.method))
      = some ("/apis/clux.dev/v1/foos", "POST") := by
  decide

/-- C8: the pluralization used for the collection-name segment, applied to
the lowercased kind, maps "Policy" to "policies", "Box" to "boxes" and
"Foo" to "foos", and is deterministic (a pure function of the kind). -/
theorem c8_pluralization :
    to_plural (toLowerStr "Policy") = "policies"
    ∧ to_plural (toLowerStr "Box") = "boxes"
    ∧ to_plural (toLowerStr "Foo") = "foos"
    ∧ ∀ k : String, to_plural (toLowerStr k) = to_plural (toLowerStr k) :=
  ⟨by decide, by decide, by decide, fun _ => rfl⟩

/-- Prefix preservation of one trace step: a step only ever appends to the
list of built descriptors. -/
theorem stepOp_built_append (w : BuildWorld) (op : BuilderOp) :
    ∃ t, (stepOp w op).built = w.built ++ t := by
  cases op with
  | setGroup g => exact ⟨[], by simp [stepOp]⟩
  | setVersion v => exact ⟨[], by simp [stepOp]⟩
  | setWithin n => exact ⟨[], by simp [stepOp]⟩
  | runBuild =>
    cases hb : w.builder.build with
    | none => exact ⟨[], by simp [stepOp, hb]⟩
    | some d => exact ⟨[d], by simp [stepOp, hb]⟩

/-- Prefix preservation of a whole run: the built descriptors only grow. -/
theorem runOps_built_append (ops : List BuilderOp) (w : BuildWorld) :
    ∃ t, (runOps w ops).built = w.built ++ t := by
  induction ops generalizing w with
  | nil => exact ⟨[], by simp [runOps]⟩
  | cons op ops ih =>
    obtain ⟨t₁, h₁⟩ := stepOp_built_append w op
    obtain ⟨t₂, h₂⟩ := ih (stepOp w op)
    exact ⟨t₁ ++ t₂, by simp [runOps, h₂, h₁]⟩

/-- C9: a previously built descriptor is immutable — after any further
sequence of setter or build operations, every descriptor already built
(each of its fields included) is still present, unchanged, at its
position. -/
theorem c9_descriptor_immutable (w : BuildWorld) (ops : List BuilderOp)
    (i : Nat) (d : CustomResource) (h : w.built.get? i = some d) :
    (runOps w ops).built.get? i = some d := by
  obtain ⟨t, ht⟩ := runOps_built_append ops w
  rw [ht]
  have hi : i < w.built.length := by
    by_contra hge
    rw [List.get?_eq_none.mpr (Nat.le_of_not_lt hge)] at h
    exact Option.noConfusion h
  rw [List.get?_append hi]
  exact h

/-- C9 witness: a world with one already-built descriptor keeps it,
unchanged, after a setter and a further build call. -/
theorem c9_witness :
    (runOps
        { builder := { kind := "Foo", version? := some "v1",
                       group? := some "clux.dev", ns := none }
          built := [{ kind := "Foo", group := "clux.dev", version := "v1",
                      api_version := "clux.dev/v1", ns := none }] }
        [BuilderOp.setGroup "other.dev", BuilderOp.runBuild]).built.get? 0
      = some { kind := "Foo", group := "clux.dev", version := "v1",
               api_version := "clux.dev/v1", ns := none } :=
  c9_descriptor_immutable _ _ 0 _ rfl

/-- C10: the conversion of a built descriptor into the synthesizer's
`RawApi` type copies every field unchanged: api_version, kind, group,
version and namespace are exactly those of the source descriptor. -/
theorem c10_conversion_preserves_fields (c : CustomResource) :
    (RawApi.fromCustomResource c).api_version = c.api_version
    ∧ (RawApi.fromCustomResource c).kind = c.kind
    ∧ (RawApi.fromCustomResource c).group = c.group
    ∧ (RawApi.fromCustomResource c).version = c.version
    ∧ (RawApi.fromCustomResource c).ns = c.ns :=
  ⟨rfl, rfl, rfl, rfl, rfl⟩
